import Mathlib

/-!
Verification of the calculation engine of the wireless-ai-network-wizard
application against its specification.

The four scenario calculators (link budget, cellular design, digital
communication chain, OFDM) are small pure formula pipelines over
JavaScript doubles.  They are embedded here in two layers:

* an exact-real layer (`calculateLinkBudget`, `calculateCellular`,
  `calculateRates`, `calculateOFDM`), where every double is idealized as a
  real number and `Math.log10` / `Math.log2` / `Math.sqrt` / `Math.ceil` /
  `Math.pow` become `Real.logb` / `Real.sqrt` / `Int.ceil` / real powers;
  rounding of doubles is out of scope, special values do not arise on the
  inputs considered at this layer;

* a JavaScript-number layer (`JSNum` and the `...JS` calculators), where a
  number is NaN, +Infinity, -Infinity, or a finite real, and the arithmetic
  operations follow the ECMAScript semantics for special values (finite
  values again idealized as exact reals; the distinction between +0 and -0
  is not modelled, a finite zero behaves as +0, which is the only zero
  produced on the evaluated paths).  This layer settles the claims about
  degenerate inputs propagating as Infinity / NaN without throwing.

Field and function names follow the source, including its spellings
(`baseSationPower`, `trafficePerCell`).
-/

namespace WirelessWizard

noncomputable section

open Real

/-! ### Exact-real layer: data model (from the source component interfaces) -/

/-- Parameter record of the link budget calculator
(interface LinkBudgetParams in the LinkBudget component). -/
structure LinkBudgetParams where
  transmitterPower : ℝ
  transmitterGain : ℝ
  frequency : ℝ
  distance : ℝ
  receiverGain : ℝ
  systemLoss : ℝ
  fadeMargin : ℝ
  receiverSensitivity : ℝ

/-- Result record of the link budget calculator (interface LinkBudgetResults). -/
structure LinkBudgetResults where
  eirp : ℝ
  freeSpaceLoss : ℝ
  receivedPower : ℝ
  linkMargin : ℝ
  isLinkViable : Prop

/-- Parameter record of the cellular design calculator (interface CellularParams). -/
structure CellularParams where
  coverageArea : ℝ
  trafficDensity : ℝ
  callDuration : ℝ
  blockingProbability : ℝ
  frequency : ℝ
  baseSationPower : ℝ
  mobilePower : ℝ
  pathLossExponent : ℝ
  shadowingMargin : ℝ
  interferenceMargin : ℝ

/-- Result record of the cellular design calculator (interface CellularResults).
The fields produced by Math.ceil are integers. -/
structure CellularResults where
  cellRadius : ℝ
  numberOfCells : ℤ
  trafficePerCell : ℝ
  channelsPerCell : ℤ
  cellCapacity : ℝ
  frequencyReuseFactor : ℤ
  spectrumEfficiency : ℝ

/-- Parameter record of the digital chain calculator (interface WirelessParams). -/
structure WirelessParams where
  sourceBitRate : ℝ
  samplingRate : ℝ
  quantizationBits : ℝ
  sourceEncodingRatio : ℝ
  channelEncodingRatio : ℝ
  interleaverDepth : ℝ
  burstLength : ℝ

/-- Result record of the digital chain calculator (interface WirelessResults). -/
structure WirelessResults where
  samplerRate : ℝ
  quantizerRate : ℝ
  sourceEncoderRate : ℝ
  channelEncoderRate : ℝ
  interleaverRate : ℝ
  burstFormatterRate : ℝ

/-- Parameter record of the OFDM calculator (interface OFDMParams). -/
structure OFDMParams where
  subcarrierSpacing : ℝ
  symbolDuration : ℝ
  cyclicPrefixRatio : ℝ
  resourceElementsPerSymbol : ℝ
  symbolsPerResourceBlock : ℝ
  resourceBlocksParallel : ℝ
  modulationOrder : ℝ
  codingRate : ℝ
  bandwidth : ℝ

/-- Result record of the OFDM calculator (interface OFDMResults). -/
structure OFDMResults where
  resourceElementRate : ℝ
  ofdmSymbolRate : ℝ
  resourceBlockRate : ℝ
  maxTransmissionCapacity : ℝ
  spectralEfficiency : ℝ

/-! ### Exact-real layer: the four calculators (from the source) -/

/-- The calculateLinkBudget function of the LinkBudget component. -/
def calculateLinkBudget (p : LinkBudgetParams) : LinkBudgetResults :=
  let eirp := p.transmitterPower + p.transmitterGain
  let freeSpaceLoss :=
    20 * Real.logb 10 p.distance + 20 * Real.logb 10 p.frequency + 32.44
  let receivedPower := eirp - freeSpaceLoss + p.receiverGain - p.systemLoss
  let linkMargin := receivedPower - p.receiverSensitivity - p.fadeMargin
  { eirp := eirp
    freeSpaceLoss := freeSpaceLoss
    receivedPower := receivedPower
    linkMargin := linkMargin
    isLinkViable := linkMargin > 0 }

/-- The calculateCellular function of the CellularDesign component. -/
def calculateCellular (p : CellularParams) : CellularResults :=
  let maxPathLoss :=
    p.baseSationPower + p.mobilePower - p.shadowingMargin - p.interferenceMargin
  let cellRadius : ℝ :=
    (10 : ℝ) ^ ((maxPathLoss - 32.44 - 20 * Real.logb 10 p.frequency)
      / (10 * p.pathLossExponent))
  let cellArea := 2.598 * cellRadius ^ (2 : ℕ)
  let numberOfCells : ℤ := ⌈p.coverageArea / cellArea⌉
  let totalTraffic := p.trafficDensity * p.callDuration / 3600
  let trafficePerCell := totalTraffic / (numberOfCells : ℝ)
  let channelsPerCell : ℤ :=
    ⌈trafficePerCell + 3 * Real.sqrt trafficePerCell + 2⌉
  let cellCapacity := (channelsPerCell : ℝ) * (1 - p.blockingProbability)
  let frequencyReuseFactor : ℤ :=
    ⌈(3 * (channelsPerCell : ℝ) / 30) ^ ((2 : ℝ) / 3)⌉
  let spectrumEfficiency := cellCapacity / ((channelsPerCell : ℝ) * 0.2)
  { cellRadius := cellRadius
    numberOfCells := numberOfCells
    trafficePerCell := trafficePerCell
    channelsPerCell := channelsPerCell
    cellCapacity := cellCapacity
    frequencyReuseFactor := frequencyReuseFactor
    spectrumEfficiency := spectrumEfficiency }

/-- The calculateRates function of the WirelessCommunication component. -/
def calculateRates (p : WirelessParams) : WirelessResults :=
  let samplerRate := p.samplingRate * p.quantizationBits
  let quantizerRate := samplerRate
  let sourceEncoderRate := quantizerRate * p.sourceEncodingRatio
  let channelEncoderRate := sourceEncoderRate / p.channelEncodingRatio
  let interleaverRate := channelEncoderRate
  let burstFormatterRate :=
    interleaverRate * (p.burstLength / (p.burstLength + 8.25))
  { samplerRate := samplerRate
    quantizerRate := quantizerRate
    sourceEncoderRate := sourceEncoderRate
    channelEncoderRate := channelEncoderRate
    interleaverRate := interleaverRate
    burstFormatterRate := burstFormatterRate }

/-- The calculateOFDM function of the OFDMSystem component. -/
def calculateOFDM (p : OFDMParams) : OFDMResults :=
  let bitsPerResourceElement := Real.logb 2 p.modulationOrder * p.codingRate
  let resourceElementRate :=
    bitsPerResourceElement * (1000 / (p.symbolDuration * (1 + p.cyclicPrefixRatio)))
  let ofdmSymbolRate := resourceElementRate * p.resourceElementsPerSymbol
  let resourceBlockRate := ofdmSymbolRate * p.symbolsPerResourceBlock
  let maxTransmissionCapacity := resourceBlockRate * p.resourceBlocksParallel
  let spectralEfficiency := maxTransmissionCapacity / p.bandwidth
  { resourceElementRate := resourceElementRate
    ofdmSymbolRate := ofdmSymbolRate
    resourceBlockRate := resourceBlockRate
    maxTransmissionCapacity := maxTransmissionCapacity
    spectralEfficiency := spectralEfficiency }

/-! ### Concrete parameter records (the useState defaults of each component,
which coincide with the literal scenarios of the specification) -/

/-- Default link budget inputs; also the literal scenario inputs of the spec. -/
def linkBudgetDefault : LinkBudgetParams :=
  { transmitterPower := 30
    transmitterGain := 15
    frequency := 2400
    distance := 10
    receiverGain := 12
    systemLoss := 3
    fadeMargin := 10
    receiverSensitivity := -95 }

/-- Default cellular design inputs. -/
def cellularDefault : CellularParams :=
  { coverageArea := 100
    trafficDensity := 50
    callDuration := 120
    blockingProbability := 0.02
    frequency := 900
    baseSationPower := 43
    mobilePower := 33
    pathLossExponent := 3.5
    shadowingMargin := 8
    interferenceMargin := 3 }

/-- Default digital chain inputs; also the literal scenario inputs of the spec. -/
def wirelessDefault : WirelessParams :=
  { sourceBitRate := 64000
    samplingRate := 8000
    quantizationBits := 8
    sourceEncodingRatio := 0.5
    channelEncodingRatio := 0.75
    interleaverDepth := 4
    burstLength := 148 }

/-- Default OFDM inputs; also the literal scenario inputs of the spec. -/
def ofdmDefault : OFDMParams :=
  { subcarrierSpacing := 15000
    symbolDuration := 66.67
    cyclicPrefixRatio := 0.07
    resourceElementsPerSymbol := 12
    symbolsPerResourceBlock := 14
    resourceBlocksParallel := 100
    modulationOrder := 4
    codingRate := 0.5
    bandwidth := 20000000 }

/-- A link budget input whose link margin is exactly zero: with distance and
frequency both 10, the free space loss is 72.44 dB, matched by the EIRP. -/
def linkBudgetBoundary : LinkBudgetParams :=
  { transmitterPower := 72.44
    transmitterGain := 0
    frequency := 10
    distance := 10
    receiverGain := 0
    systemLoss := 0
    fadeMargin := 0
    receiverSensitivity := 0 }

/-- A cellular input chosen so that every intermediate value is a simple
closed form: cell radius 1 km, one cell, one Erlang per cell, six channels. -/
def cellularSimple : CellularParams :=
  { coverageArea := 2.598
    trafficDensity := 3600
    callDuration := 1
    blockingProbability := 0.5
    frequency := 10
    baseSationPower := 52.44
    mobilePower := 0
    pathLossExponent := 1
    shadowingMargin := 0
    interferenceMargin := 0 }

/-! ### JavaScript-number layer

A JavaScript number is NaN, +Infinity, -Infinity, or a finite double; the
finite case is idealized as an exact real and the distinction between +0
and -0 is not modelled (a finite zero behaves as +0, the only zero that
occurs on the evaluated paths).  The operations below follow the
ECMAScript semantics for special values. -/

open scoped Classical

/-- A JavaScript number: NaN, one of the two infinities, or a finite value. -/
inductive JSNum where
  | nan : JSNum
  | posInf : JSNum
  | negInf : JSNum
  | num : ℝ → JSNum

namespace JSNum

/-- JavaScript addition. -/
def add : JSNum → JSNum → JSNum
  | nan, _ => nan
  | _, nan => nan
  | posInf, negInf => nan
  | negInf, posInf => nan
  | posInf, _ => posInf
  | _, posInf => posInf
  | negInf, _ => negInf
  | _, negInf => negInf
  | num x, num y => num (x + y)

/-- JavaScript unary minus. -/
def neg : JSNum → JSNum
  | nan => nan
  | posInf => negInf
  | negInf => posInf
  | num x => num (-x)

/-- JavaScript subtraction (addition of the negation). -/
def sub (a b : JSNum) : JSNum := a.add b.neg

/-- JavaScript multiplication. -/
def mul : JSNum → JSNum → JSNum
  | nan, _ => nan
  | _, nan => nan
  | posInf, posInf => posInf
  | posInf, negInf => negInf
  | negInf, posInf => negInf
  | negInf, negInf => posInf
  | posInf, num y => if 0 < y then posInf else if y < 0 then negInf else nan
  | num x, posInf => if 0 < x then posInf else if x < 0 then negInf else nan
  | negInf, num y => if 0 < y then negInf else if y < 0 then posInf else nan
  | num x, negInf => if 0 < x then negInf else if x < 0 then posInf else nan
  | num x, num y => num (x * y)

/-- JavaScript division. -/
def div : JSNum → JSNum → JSNum
  | nan, _ => nan
  | _, nan => nan
  | posInf, posInf => nan
  | posInf, negInf => nan
  | negInf, posInf => nan
  | negInf, negInf => nan
  | posInf, num y => if y < 0 then negInf else posInf
  | negInf, num y => if y < 0 then posInf else negInf
  | num _, posInf => num 0
  | num _, negInf => num 0
  | num x, num y =>
      if y = 0 then (if 0 < x then posInf else if x < 0 then negInf else nan)
      else num (x / y)

/-- JavaScript Math.log10. -/
def log10 : JSNum → JSNum
  | nan => nan
  | posInf => posInf
  | negInf => nan
  | num x => if 0 < x then num (Real.logb 10 x) else if x = 0 then negInf else nan

/-- JavaScript Math.log2. -/
def log2 : JSNum → JSNum
  | nan => nan
  | posInf => posInf
  | negInf => nan
  | num x => if 0 < x then num (Real.logb 2 x) else if x = 0 then negInf else nan

/-- JavaScript Math.sqrt. -/
def sqrt : JSNum → JSNum
  | nan => nan
  | posInf => posInf
  | negInf => nan
  | num x => if 0 ≤ x then num (Real.sqrt x) else nan

/-- JavaScript Math.ceil. -/
def ceil : JSNum → JSNum
  | nan => nan
  | posInf => posInf
  | negInf => negInf
  | num x => num ((⌈x⌉ : ℤ) : ℝ)

/-- The exponent is an odd integer. -/
def isOddInt (e : ℝ) : Prop := ∃ k : ℤ, e = 2 * k + 1

/-- The exponent is an even integer. -/
def isEvenInt (e : ℝ) : Prop := ∃ k : ℤ, e = 2 * k

/-- JavaScript Math.pow for the cases that can arise here: any exponent with
value zero gives 1 (even for NaN base); infinite bases and exponents follow
the ECMAScript table; a negative finite base with a non-integer finite
exponent gives NaN. -/
def pow : JSNum → JSNum → JSNum
  | nan, num e0 => if e0 = 0 then num 1 else nan
  | posInf, num e0 => if e0 = 0 then num 1 else if 0 < e0 then posInf else num 0
  | negInf, num e0 =>
      if e0 = 0 then num 1
      else if 0 < e0 then (if isOddInt e0 then negInf else posInf)
      else num 0
  | num x, num e0 =>
      if e0 = 0 then num 1
      else if x = 0 then (if 0 < e0 then num 0 else posInf)
      else if 0 < x then num (x ^ e0)
      else if isEvenInt e0 then num (|x| ^ e0)
      else if isOddInt e0 then num (-(|x| ^ e0))
      else nan
  | nan, _ => nan
  | _, nan => nan
  | num x, posInf => if 1 < |x| then posInf else if |x| < 1 then num 0 else nan
  | num x, negInf => if 1 < |x| then num 0 else if |x| < 1 then posInf else nan
  | posInf, posInf => posInf
  | posInf, negInf => num 0
  | negInf, posInf => posInf
  | negInf, negInf => num 0

/-- The JavaScript comparison with the literal zero, as used in
linkMargin > 0: false for NaN, true for +Infinity. -/
def isPos : JSNum → Prop
  | posInf => True
  | num x => 0 < x
  | _ => False

end JSNum

/-! ### JavaScript-number layer: the four calculators (same formulas,
special-value arithmetic) -/

/-- Link budget parameters over JavaScript numbers. -/
structure LinkBudgetParamsJS where
  transmitterPower : JSNum
  transmitterGain : JSNum
  frequency : JSNum
  distance : JSNum
  receiverGain : JSNum
  systemLoss : JSNum
  fadeMargin : JSNum
  receiverSensitivity : JSNum

/-- Link budget results over JavaScript numbers. -/
structure LinkBudgetResultsJS where
  eirp : JSNum
  freeSpaceLoss : JSNum
  receivedPower : JSNum
  linkMargin : JSNum
  isLinkViable : Prop

/-- The calculateLinkBudget function over JavaScript numbers. -/
def calculateLinkBudgetJS (p : LinkBudgetParamsJS) : LinkBudgetResultsJS :=
  let eirp := p.transmitterPower.add p.transmitterGain
  let freeSpaceLoss :=
    (((JSNum.num 20).mul p.distance.log10).add
      ((JSNum.num 20).mul p.frequency.log10)).add (JSNum.num 32.44)
  let receivedPower := ((eirp.sub freeSpaceLoss).add p.receiverGain).sub p.systemLoss
  let linkMargin := (receivedPower.sub p.receiverSensitivity).sub p.fadeMargin
  { eirp := eirp
    freeSpaceLoss := freeSpaceLoss
    receivedPower := receivedPower
    linkMargin := linkMargin
    isLinkViable := linkMargin.isPos }

/-- Cellular parameters over JavaScript numbers. -/
structure CellularParamsJS where
  coverageArea : JSNum
  trafficDensity : JSNum
  callDuration : JSNum
  blockingProbability : JSNum
  frequency : JSNum
  baseSationPower : JSNum
  mobilePower : JSNum
  pathLossExponent : JSNum
  shadowingMargin : JSNum
  interferenceMargin : JSNum

/-- Cellular results over JavaScript numbers. -/
structure CellularResultsJS where
  cellRadius : JSNum
  numberOfCells : JSNum
  trafficePerCell : JSNum
  channelsPerCell : JSNum
  cellCapacity : JSNum
  frequencyReuseFactor : JSNum
  spectrumEfficiency : JSNum

/-- The calculateCellular function over JavaScript numbers. -/
def calculateCellularJS (p : CellularParamsJS) : CellularResultsJS :=
  let maxPathLoss :=
    ((p.baseSationPower.add p.mobilePower).sub p.shadowingMargin).sub p.interferenceMargin
  let cellRadius :=
    (JSNum.num 10).pow
      (((maxPathLoss.sub (JSNum.num 32.44)).sub
          ((JSNum.num 20).mul p.frequency.log10)).div
        ((JSNum.num 10).mul p.pathLossExponent))
  let cellArea := (JSNum.num 2.598).mul (cellRadius.pow (JSNum.num 2))
  let numberOfCells := (p.coverageArea.div cellArea).ceil
  let totalTraffic := (p.trafficDensity.mul p.callDuration).div (JSNum.num 3600)
  let trafficePerCell := totalTraffic.div numberOfCells
  let channelsPerCell :=
    ((trafficePerCell.add ((JSNum.num 3).mul trafficePerCell.sqrt)).add (JSNum.num 2)).ceil
  let cellCapacity := channelsPerCell.mul ((JSNum.num 1).sub p.blockingProbability)
  let frequencyReuseFactor :=
    ((((JSNum.num 3).mul channelsPerCell).div (JSNum.num 30)).pow
      (JSNum.num (2 / 3))).ceil
  let spectrumEfficiency := cellCapacity.div (channelsPerCell.mul (JSNum.num 0.2))
  { cellRadius := cellRadius
    numberOfCells := numberOfCells
    trafficePerCell := trafficePerCell
    channelsPerCell := channelsPerCell
    cellCapacity := cellCapacity
    frequencyReuseFactor := frequencyReuseFactor
    spectrumEfficiency := spectrumEfficiency }

/-- Digital chain parameters over JavaScript numbers. -/
structure WirelessParamsJS where
  sourceBitRate : JSNum
  samplingRate : JSNum
  quantizationBits : JSNum
  sourceEncodingRatio : JSNum
  channelEncodingRatio : JSNum
  interleaverDepth : JSNum
  burstLength : JSNum

/-- Digital chain results over JavaScript numbers. -/
structure WirelessResultsJS where
  samplerRate : JSNum
  quantizerRate : JSNum
  sourceEncoderRate : JSNum
  channelEncoderRate : JSNum
  interleaverRate : JSNum
  burstFormatterRate : JSNum

/-- The calculateRates function over JavaScript numbers. -/
def calculateRatesJS (p : WirelessParamsJS) : WirelessResultsJS :=
  let samplerRate := p.samplingRate.mul p.quantizationBits
  let quantizerRate := samplerRate
  let sourceEncoderRate := quantizerRate.mul p.sourceEncodingRatio
  let channelEncoderRate := sourceEncoderRate.div p.channelEncodingRatio
  let interleaverRate := channelEncoderRate
  let burstFormatterRate :=
    interleaverRate.mul (p.burstLength.div (p.burstLength.add (JSNum.num 8.25)))
  { samplerRate := samplerRate
    quantizerRate := quantizerRate
    sourceEncoderRate := sourceEncoderRate
    channelEncoderRate := channelEncoderRate
    interleaverRate := interleaverRate
    burstFormatterRate := burstFormatterRate }

/-- OFDM parameters over JavaScript numbers. -/
structure OFDMParamsJS where
  subcarrierSpacing : JSNum
  symbolDuration : JSNum
  cyclicPrefixRatio : JSNum
  resourceElementsPerSymbol : JSNum
  symbolsPerResourceBlock : JSNum
  resourceBlocksParallel : JSNum
  modulationOrder : JSNum
  codingRate : JSNum
  bandwidth : JSNum

/-- OFDM results over JavaScript numbers. -/
structure OFDMResultsJS where
  resourceElementRate : JSNum
  ofdmSymbolRate : JSNum
  resourceBlockRate : JSNum
  maxTransmissionCapacity : JSNum
  spectralEfficiency : JSNum

/-- The calculateOFDM function over JavaScript numbers. -/
def calculateOFDMJS (p : OFDMParamsJS) : OFDMResultsJS :=
  let bitsPerResourceElement := p.modulationOrder.log2.mul p.codingRate
  let resourceElementRate :=
    bitsPerResourceElement.mul
      ((JSNum.num 1000).div
        (p.symbolDuration.mul ((JSNum.num 1).add p.cyclicPrefixRatio)))
  let ofdmSymbolRate := resourceElementRate.mul p.resourceElementsPerSymbol
  let resourceBlockRate := ofdmSymbolRate.mul p.symbolsPerResourceBlock
  let maxTransmissionCapacity := resourceBlockRate.mul p.resourceBlocksParallel
  let spectralEfficiency := maxTransmissionCapacity.div p.bandwidth
  { resourceElementRate := resourceElementRate
    ofdmSymbolRate := ofdmSymbolRate
    resourceBlockRate := resourceBlockRate
    maxTransmissionCapacity := maxTransmissionCapacity
    spectralEfficiency := spectralEfficiency }

/-! ### JavaScript-number layer: default parameter records -/

/-- Default link budget inputs over JavaScript numbers. -/
def linkBudgetDefaultJS : LinkBudgetParamsJS :=
  { transmitterPower := JSNum.num 30
    transmitterGain := JSNum.num 15
    frequency := JSNum.num 2400
    distance := JSNum.num 10
    receiverGain := JSNum.num 12
    systemLoss := JSNum.num 3
    fadeMargin := JSNum.num 10
    receiverSensitivity := JSNum.num (-95) }

/-- Default cellular inputs over JavaScript numbers. -/
def cellularDefaultJS : CellularParamsJS :=
  { coverageArea := JSNum.num 100
    trafficDensity := JSNum.num 50
    callDuration := JSNum.num 120
    blockingProbability := JSNum.num 0.02
    frequency := JSNum.num 900
    baseSationPower := JSNum.num 43
    mobilePower := JSNum.num 33
    pathLossExponent := JSNum.num 3.5
    shadowingMargin := JSNum.num 8
    interferenceMargin := JSNum.num 3 }

/-- Default digital chain inputs over JavaScript numbers. -/
def wirelessDefaultJS : WirelessParamsJS :=
  { sourceBitRate := JSNum.num 64000
    samplingRate := JSNum.num 8000
    quantizationBits := JSNum.num 8
    sourceEncodingRatio := JSNum.num 0.5
    channelEncodingRatio := JSNum.num 0.75
    interleaverDepth := JSNum.num 4
    burstLength := JSNum.num 148 }

/-- Default OFDM inputs over JavaScript numbers. -/
def ofdmDefaultJS : OFDMParamsJS :=
  { subcarrierSpacing := JSNum.num 15000
    symbolDuration := JSNum.num 66.67
    cyclicPrefixRatio := JSNum.num 0.07
    resourceElementsPerSymbol := JSNum.num 12
    symbolsPerResourceBlock := JSNum.num 14
    resourceBlocksParallel := JSNum.num 100
    modulationOrder := JSNum.num 4
    codingRate := JSNum.num 0.5
    bandwidth := JSNum.num 20000000 }

end

/-! ### Explanation client model (AIExplanation component, getExplanation)

The HTTP exchange is modelled by the response the fetch call produced: its
status, its text body, and the decoded JSON shape.  Every step of the
optional chain candidates[0].content.parts[0].text is an Option, matching
the JavaScript optional-chaining semantics. -/

/-- One element of the parts array of a candidate content. -/
structure GeminiPart where
  text : Option String
deriving DecidableEq

/-- The content object of a candidate. -/
structure GeminiContent where
  parts : Option (List GeminiPart)
deriving DecidableEq

/-- One element of the candidates array. -/
structure GeminiCandidate where
  content : Option GeminiContent
deriving DecidableEq

/-- The decoded JSON body of the explanation service response. -/
structure GeminiData where
  candidates : Option (List GeminiCandidate)
deriving DecidableEq

/-- The observable outcome of the fetch call. -/
structure ApiResponse where
  status : Nat
  body : String
  data : GeminiData

/-- The ok flag of a fetch response: status in the range 200 to 299. -/
def ApiResponse.ok (r : ApiResponse) : Bool :=
  200 ≤ r.status && r.status ≤ 299

/-- The optional chain data.candidates?.[0]?.content?.parts?.[0]?.text. -/
def extractText (d : GeminiData) : Option String :=
  match d.candidates with
  | none => none
  | some cs =>
    match cs.head? with
    | none => none
    | some c =>
      match c.content with
      | none => none
      | some ct =>
        match ct.parts with
        | none => none
        | some ps =>
          match ps.head? with
          | none => none
          | some pt => pt.text

/-- The JavaScript or-else: an absent value or the empty string (both falsy)
fall back to the literal message. -/
def orFallback : Option String → String
  | none => "No explanation available."
  | some s => if s = "" then "No explanation available." else s

/-- The getExplanation response handling: non-2xx throws an error carrying
the status and the body text; otherwise the extracted text (or the fallback)
is returned. -/
def getExplanation (r : ApiResponse) : Except String String :=
  if r.ok then Except.ok (orFallback (extractText r.data))
  else
    Except.error
      ("API request failed with status " ++ toString r.status ++ ": " ++ r.body)

/-- A 200 response whose first text part is the empty string. -/
def emptyTextResponse : ApiResponse :=
  { status := 200
    body := ""
    data := { candidates := some [{ content := some { parts := some [{ text := some "" }] } }] } }

/-- A 200 response whose first text part is a normal explanation. -/
def okTextResponse : ApiResponse :=
  { status := 200
    body := ""
    data := { candidates := some [{ content := some { parts := some [{ text := some "ok" }] } }] } }

/-- A 200 response whose JSON carries no candidates path. -/
def missingPathResponse : ApiResponse :=
  { status := 200
    body := ""
    data := { candidates := none } }

/-- A 404 response with a body. -/
def errorResponse : ApiResponse :=
  { status := 404
    body := "not found"
    data := { candidates := none } }

/-! ### Numeric helper lemmas for the base-ten logarithm -/

/-- Lower bound for log10 of 2400, via 10 to the 169 being below 2400 to the 50. -/
theorem logb_ten_2400_gt : (3.38 : ℝ) < Real.logb 10 2400 := by
  have key : ((10 : ℝ) ^ ((169 : ℝ) / 50)) ^ (50 : ℕ) = (10 : ℝ) ^ (169 : ℕ) := by
    rw [← Real.rpow_natCast ((10 : ℝ) ^ ((169 : ℝ) / 50)) 50,
      ← Real.rpow_mul (by norm_num : (0 : ℝ) ≤ 10)]
    rw [show (169 : ℝ) / 50 * ((50 : ℕ) : ℝ) = ((169 : ℕ) : ℝ) by push_cast; ring]
    rw [Real.rpow_natCast]
  have h : (10 : ℝ) ^ ((169 : ℝ) / 50) < 2400 := by
    refine (pow_lt_pow_iff_left₀ (Real.rpow_nonneg (by norm_num) _)
      (by norm_num) (by norm_num : (50 : ℕ) ≠ 0)).mp ?_
    rw [key]
    norm_num
  have h2 : ((169 : ℝ) / 50) < Real.logb 10 2400 :=
    (Real.lt_logb_iff_rpow_lt (by norm_num) (by norm_num)).mpr h
  linarith

/-- Upper bound for log10 of 2400, via 2400 to the 2000 being below 10 to the 6761. -/
theorem logb_ten_2400_lt : Real.logb 10 2400 < 3.3805 := by
  have key : ((10 : ℝ) ^ ((6761 : ℝ) / 2000)) ^ (2000 : ℕ) = (10 : ℝ) ^ (6761 : ℕ) := by
    rw [← Real.rpow_natCast ((10 : ℝ) ^ ((6761 : ℝ) / 2000)) 2000,
      ← Real.rpow_mul (by norm_num : (0 : ℝ) ≤ 10)]
    rw [show (6761 : ℝ) / 2000 * ((2000 : ℕ) : ℝ) = ((6761 : ℕ) : ℝ) by push_cast; ring]
    rw [Real.rpow_natCast]
  have h : (2400 : ℝ) < (10 : ℝ) ^ ((6761 : ℝ) / 2000) := by
    refine (pow_lt_pow_iff_left₀ (by norm_num)
      (Real.rpow_nonneg (by norm_num) _) (by norm_num : (2000 : ℕ) ≠ 0)).mp ?_
    rw [key]
    norm_num
  have h2 : Real.logb 10 2400 < (6761 : ℝ) / 2000 :=
    (Real.logb_lt_iff_lt_rpow (by norm_num) (by norm_num)).mpr h
  linarith

/-- Log10 of 1000 is exactly 3. -/
theorem logb_ten_1000 : Real.logb 10 1000 = 3 := by
  rw [show (1000 : ℝ) = 10 ^ (3 : ℕ) by norm_num, Real.logb_pow,
    Real.logb_self_eq_one (by norm_num)]
  norm_num

/-- Log2 of 4 is exactly 2. -/
theorem logb_two_four : Real.logb 2 4 = 2 := by
  rw [show (4 : ℝ) = 2 ^ (2 : ℕ) by norm_num, Real.logb_pow,
    Real.logb_self_eq_one (by norm_num)]
  norm_num

/-! ### Claim C1: link budget formulas and the literal scenario -/

/-- C1: for every link budget parameter record the calculator returns
eirp = transmitterPower + transmitterGain,
freeSpaceLoss = 20 log10 distance + 20 log10 frequency + 32.44,
receivedPower = eirp - freeSpaceLoss + receiverGain - systemLoss and
linkMargin = receivedPower - receiverSensitivity - fadeMargin; on the
literal scenario inputs it returns eirp 45, freeSpaceLoss about 120.043,
receivedPower about -66.043, linkMargin about 18.957 (each within 0.01)
and a viable link. -/
theorem c1_linkBudget_formulas_and_literal :
    (∀ p : LinkBudgetParams,
      (calculateLinkBudget p).eirp = p.transmitterPower + p.transmitterGain ∧
      (calculateLinkBudget p).freeSpaceLoss =
        20 * Real.logb 10 p.distance + 20 * Real.logb 10 p.frequency + 32.44 ∧
      (calculateLinkBudget p).receivedPower =
        (calculateLinkBudget p).eirp - (calculateLinkBudget p).freeSpaceLoss
          + p.receiverGain - p.systemLoss ∧
      (calculateLinkBudget p).linkMargin =
        (calculateLinkBudget p).receivedPower - p.receiverSensitivity - p.fadeMargin) ∧
    ((calculateLinkBudget linkBudgetDefault).eirp = 45 ∧
     |(calculateLinkBudget linkBudgetDefault).freeSpaceLoss - 120.043| < 0.01 ∧
     |(calculateLinkBudget linkBudgetDefault).receivedPower - (-66.043)| < 0.01 ∧
     |(calculateLinkBudget linkBudgetDefault).linkMargin - 18.957| < 0.01 ∧
     (calculateLinkBudget linkBudgetDefault).isLinkViable) := by
  have hd : Real.logb 10 (10 : ℝ) = 1 := Real.logb_self_eq_one (by norm_num)
  have h1 := logb_ten_2400_gt
  have h2 := logb_ten_2400_lt
  have ee : (calculateLinkBudget linkBudgetDefault).eirp = 30 + 15 := rfl
  have efsl : (calculateLinkBudget linkBudgetDefault).freeSpaceLoss =
      20 * Real.logb 10 10 + 20 * Real.logb 10 2400 + 32.44 := rfl
  have erp : (calculateLinkBudget linkBudgetDefault).receivedPower =
      (30 + 15) - (20 * Real.logb 10 10 + 20 * Real.logb 10 2400 + 32.44) + 12 - 3 := rfl
  have elm : (calculateLinkBudget linkBudgetDefault).linkMargin =
      (30 + 15) - (20 * Real.logb 10 10 + 20 * Real.logb 10 2400 + 32.44)
        + 12 - 3 - (-95) - 10 := rfl
  refine ⟨fun p => ⟨rfl, rfl, rfl, rfl⟩, ?_, ?_, ?_, ?_, ?_⟩
  · rw [ee]; norm_num
  · rw [efsl, hd, abs_lt]; constructor <;> linarith
  · rw [erp, hd, abs_lt]; constructor <;> linarith
  · rw [elm, hd, abs_lt]; constructor <;> linarith
  · show (0 : ℝ) < (calculateLinkBudget linkBudgetDefault).linkMargin
    rw [elm, hd]; linarith

/-! ### Claim C2: cellular design formulas -/

/-- C2: for every cellular parameter record the calculator returns the
result record given by the stated formula chain: cell radius from the
maximum path loss, hexagonal cell count, traffic per cell, the Erlang-B
size approximation for channels, capacity, the simplified reuse factor
and the spectrum efficiency. -/
theorem c2_cellular_formulas (p : CellularParams) :
    (calculateCellular p).cellRadius =
      (10 : ℝ) ^ ((p.baseSationPower + p.mobilePower - p.shadowingMargin
          - p.interferenceMargin - 32.44 - 20 * Real.logb 10 p.frequency)
        / (10 * p.pathLossExponent)) ∧
    (calculateCellular p).numberOfCells =
      ⌈p.coverageArea / (2.598 * (calculateCellular p).cellRadius ^ (2 : ℕ))⌉ ∧
    (calculateCellular p).trafficePerCell =
      (p.trafficDensity * p.callDuration / 3600)
        / (((calculateCellular p).numberOfCells : ℤ) : ℝ) ∧
    (calculateCellular p).channelsPerCell =
      ⌈(calculateCellular p).trafficePerCell
        + 3 * Real.sqrt ((calculateCellular p).trafficePerCell) + 2⌉ ∧
    (calculateCellular p).cellCapacity =
      (((calculateCellular p).channelsPerCell : ℤ) : ℝ) * (1 - p.blockingProbability) ∧
    (calculateCellular p).frequencyReuseFactor =
      ⌈(3 * (((calculateCellular p).channelsPerCell : ℤ) : ℝ) / 30) ^ ((2 : ℝ) / 3)⌉ ∧
    (calculateCellular p).spectrumEfficiency =
      (calculateCellular p).cellCapacity
        / ((((calculateCellular p).channelsPerCell : ℤ) : ℝ) * 0.2) := by
  exact ⟨rfl, rfl, rfl, rfl, rfl, rfl, rfl⟩

/-! ### Claim C3: digital chain, corrected literal scenario -/

/-- C3 counterexample: on the literal scenario inputs the burst formatter
rate differs from the claimed 40405.33 by more than 8, so the claimed
approximate value is wrong (the true value is 42666.67 times 148 over
156.25, about 40413.87). -/
theorem c3_burstFormatter_counterexample :
    8 < |(calculateRates wirelessDefault).burstFormatterRate - 40405.33| := by
  have e : (calculateRates wirelessDefault).burstFormatterRate =
      8000 * 8 * 0.5 / 0.75 * (148 / (148 + 8.25)) := rfl
  rw [e, lt_abs]
  left
  norm_num

/-- C3 amended: the digital chain follows the stated chain of rate formulas,
and on the literal scenario inputs returns samplerRate 64000,
sourceEncoderRate 32000, channelEncoderRate about 42666.67 and
burstFormatterRate about 40413.87 (not 40405.33). -/
theorem c3_wireless_chain_amended :
    (∀ p : WirelessParams,
      (calculateRates p).samplerRate = p.samplingRate * p.quantizationBits ∧
      (calculateRates p).quantizerRate = (calculateRates p).samplerRate ∧
      (calculateRates p).sourceEncoderRate =
        (calculateRates p).quantizerRate * p.sourceEncodingRatio ∧
      (calculateRates p).channelEncoderRate =
        (calculateRates p).sourceEncoderRate / p.channelEncodingRatio ∧
      (calculateRates p).interleaverRate = (calculateRates p).channelEncoderRate ∧
      (calculateRates p).burstFormatterRate =
        (calculateRates p).interleaverRate
          * (p.burstLength / (p.burstLength + 8.25))) ∧
    ((calculateRates wirelessDefault).samplerRate = 64000 ∧
     (calculateRates wirelessDefault).sourceEncoderRate = 32000 ∧
     |(calculateRates wirelessDefault).channelEncoderRate - 42666.67| < 0.01 ∧
     |(calculateRates wirelessDefault).burstFormatterRate - 40413.87| < 0.01) := by
  refine ⟨fun p => ⟨rfl, rfl, rfl, rfl, rfl, rfl⟩, ?_, ?_, ?_, ?_⟩
  · show (8000 : ℝ) * 8 = 64000
    norm_num
  · show (8000 : ℝ) * 8 * 0.5 = 32000
    norm_num
  · show |(8000 : ℝ) * 8 * 0.5 / 0.75 - 42666.67| < 0.01
    rw [abs_lt]
    constructor <;> norm_num
  · show |(8000 : ℝ) * 8 * 0.5 / 0.75 * (148 / (148 + 8.25)) - 40413.87| < 0.01
    rw [abs_lt]
    constructor <;> norm_num

/-! ### Claim C4: OFDM, corrected literal scenario -/

/-- C4 counterexample: on the literal scenario inputs the resource block
rate differs from the claimed 2358.2 by more than 1 and the maximum
transmission capacity differs from the claimed 235820 by more than 100,
so the claimed approximate values are wrong. -/
theorem c4_ofdm_counterexample :
    1 < |(calculateOFDM ofdmDefault).resourceBlockRate - 2358.2| ∧
    100 < |(calculateOFDM ofdmDefault).maxTransmissionCapacity - 235820| := by
  have e1 : (calculateOFDM ofdmDefault).resourceBlockRate =
      Real.logb 2 4 * 0.5 * (1000 / (66.67 * (1 + 0.07))) * 12 * 14 := rfl
  have e2 : (calculateOFDM ofdmDefault).maxTransmissionCapacity =
      Real.logb 2 4 * 0.5 * (1000 / (66.67 * (1 + 0.07))) * 12 * 14 * 100 := rfl
  constructor
  · rw [e1, logb_two_four, lt_abs]
    right
    norm_num
  · rw [e2, logb_two_four, lt_abs]
    right
    norm_num

/-- C4 amended: the OFDM calculator follows the stated formula with the
exact constant 1000, bits per resource element on the literal inputs is 1,
and the literal scenario results are resourceElementRate about 14.018,
ofdmSymbolRate about 168.216, resourceBlockRate about 2355.022,
maxTransmissionCapacity about 235502.2 and spectralEfficiency about
0.0117751 (not 14.037, 168.44, 2358.2, 235820, 0.01179). -/
theorem c4_ofdm_amended :
    (∀ p : OFDMParams,
      (calculateOFDM p).resourceElementRate =
        Real.logb 2 p.modulationOrder * p.codingRate
          * (1000 / (p.symbolDuration * (1 + p.cyclicPrefixRatio))) ∧
      (calculateOFDM p).ofdmSymbolRate =
        (calculateOFDM p).resourceElementRate * p.resourceElementsPerSymbol ∧
      (calculateOFDM p).resourceBlockRate =
        (calculateOFDM p).ofdmSymbolRate * p.symbolsPerResourceBlock ∧
      (calculateOFDM p).maxTransmissionCapacity =
        (calculateOFDM p).resourceBlockRate * p.resourceBlocksParallel ∧
      (calculateOFDM p).spectralEfficiency =
        (calculateOFDM p).maxTransmissionCapacity / p.bandwidth) ∧
    (Real.logb 2 (4 : ℝ) * 0.5 = 1 ∧
     |(calculateOFDM ofdmDefault).resourceElementRate - 14.018| < 0.001 ∧
     |(calculateOFDM ofdmDefault).ofdmSymbolRate - 168.216| < 0.001 ∧
     |(calculateOFDM ofdmDefault).resourceBlockRate - 2355.022| < 0.001 ∧
     |(calculateOFDM ofdmDefault).maxTransmissionCapacity - 235502.2| < 0.1 ∧
     |(calculateOFDM ofdmDefault).spectralEfficiency - 0.0117751| < 0.0000001) := by
  have e0 : (calculateOFDM ofdmDefault).resourceElementRate =
      Real.logb 2 4 * 0.5 * (1000 / (66.67 * (1 + 0.07))) := rfl
  have e1 : (calculateOFDM ofdmDefault).ofdmSymbolRate =
      Real.logb 2 4 * 0.5 * (1000 / (66.67 * (1 + 0.07))) * 12 := rfl
  have e2 : (calculateOFDM ofdmDefault).resourceBlockRate =
      Real.logb 2 4 * 0.5 * (1000 / (66.67 * (1 + 0.07))) * 12 * 14 := rfl
  have e3 : (calculateOFDM ofdmDefault).maxTransmissionCapacity =
      Real.logb 2 4 * 0.5 * (1000 / (66.67 * (1 + 0.07))) * 12 * 14 * 100 := rfl
  have e4 : (calculateOFDM ofdmDefault).spectralEfficiency =
      Real.logb 2 4 * 0.5 * (1000 / (66.67 * (1 + 0.07))) * 12 * 14 * 100 / 20000000 := rfl
  refine ⟨fun p => ⟨rfl, rfl, rfl, rfl, rfl⟩, ?_, ?_, ?_, ?_, ?_, ?_⟩
  · rw [logb_two_four]; norm_num
  · rw [e0, logb_two_four, abs_lt]; constructor <;> norm_num
  · rw [e1, logb_two_four, abs_lt]; constructor <;> norm_num
  · rw [e2, logb_two_four, abs_lt]; constructor <;> norm_num
  · rw [e3, logb_two_four, abs_lt]; constructor <;> norm_num
  · rw [e4, logb_two_four, abs_lt]; constructor <;> norm_num

/-! ### Evaluation lemmas for the JavaScript-number operations -/

namespace JSNum

@[simp] theorem add_num_num (x y : ℝ) : add (num x) (num y) = num (x + y) := rfl

@[simp] theorem add_num_negInf (x : ℝ) : add (num x) negInf = negInf := rfl

@[simp] theorem add_negInf_num (y : ℝ) : add negInf (num y) = negInf := rfl

@[simp] theorem add_num_posInf (x : ℝ) : add (num x) posInf = posInf := rfl

@[simp] theorem add_posInf_num (y : ℝ) : add posInf (num y) = posInf := rfl

@[simp] theorem add_posInf_posInf : add posInf posInf = posInf := rfl

@[simp] theorem neg_num (x : ℝ) : neg (num x) = num (-x) := rfl

@[simp] theorem neg_posInf : neg posInf = negInf := rfl

@[simp] theorem neg_negInf : neg negInf = posInf := rfl

@[simp] theorem sub_eq (a b : JSNum) : sub a b = a.add b.neg := rfl

@[simp] theorem mul_num_num (x y : ℝ) : mul (num x) (num y) = num (x * y) := rfl

@[simp] theorem mul_posInf_num_pos {y : ℝ} (h : 0 < y) : mul posInf (num y) = posInf := by
  simp only [mul]
  rw [if_pos h]

@[simp] theorem mul_num_posInf_pos {x : ℝ} (h : 0 < x) : mul (num x) posInf = posInf := by
  simp only [mul]
  rw [if_pos h]

@[simp] theorem mul_negInf_num_pos {y : ℝ} (h : 0 < y) : mul negInf (num y) = negInf := by
  simp only [mul]
  rw [if_pos h]

@[simp] theorem mul_num_negInf_pos {x : ℝ} (h : 0 < x) : mul (num x) negInf = negInf := by
  simp only [mul]
  rw [if_pos h]

@[simp] theorem mul_posInf_posInf : mul posInf posInf = posInf := rfl

@[simp] theorem div_num_num (x : ℝ) {y : ℝ} (h : y ≠ 0) :
    div (num x) (num y) = num (x / y) := by
  simp only [div]
  rw [if_neg h]

@[simp] theorem div_num_zero_pos {x : ℝ} (h : 0 < x) : div (num x) (num 0) = posInf := by
  simp [div, h]

@[simp] theorem div_num_zero_neg {x : ℝ} (h : x < 0) : div (num x) (num 0) = negInf := by
  simp [div, h, asymm h]

@[simp] theorem div_num_posInf (x : ℝ) : div (num x) posInf = num 0 := rfl

@[simp] theorem div_posInf_num_nonneg {y : ℝ} (h : 0 ≤ y) : div posInf (num y) = posInf := by
  simp only [div]
  rw [if_neg (not_lt.mpr h)]

@[simp] theorem div_negInf_num_nonneg {y : ℝ} (h : 0 ≤ y) : div negInf (num y) = negInf := by
  simp only [div]
  rw [if_neg (not_lt.mpr h)]

@[simp] theorem div_posInf_posInf : div posInf posInf = nan := rfl

@[simp] theorem log10_num_pos {x : ℝ} (h : 0 < x) :
    log10 (num x) = num (Real.logb 10 x) := by
  simp only [log10]
  rw [if_pos h]

@[simp] theorem log10_num_zero : log10 (num 0) = negInf := by
  simp [log10]

@[simp] theorem log2_num_pos {x : ℝ} (h : 0 < x) :
    log2 (num x) = num (Real.logb 2 x) := by
  simp only [log2]
  rw [if_pos h]

@[simp] theorem log2_num_zero : log2 (num 0) = negInf := by
  simp [log2]

@[simp] theorem sqrt_num {x : ℝ} (h : 0 ≤ x) : sqrt (num x) = num (Real.sqrt x) := by
  simp only [sqrt]
  rw [if_pos h]

@[simp] theorem sqrt_posInf : sqrt posInf = posInf := rfl

@[simp] theorem ceil_num (x : ℝ) : ceil (num x) = num ((⌈x⌉ : ℤ) : ℝ) := rfl

@[simp] theorem ceil_posInf : ceil posInf = posInf := rfl

@[simp] theorem pow_num_num_pos {x e : ℝ} (hx : 0 < x) (he : e ≠ 0) :
    pow (num x) (num e) = num (x ^ e) := by
  simp only [pow]
  rw [if_neg he, if_neg hx.ne', if_pos hx]

@[simp] theorem pow_num_zero_base {e : ℝ} (he : 0 < e) : pow (num 0) (num e) = num 0 := by
  simp [pow, he, he.ne']

@[simp] theorem pow_posInf_num_pos {e : ℝ} (he : 0 < e) : pow posInf (num e) = posInf := by
  simp only [pow]
  rw [if_neg he.ne', if_pos he]

@[simp] theorem pow_num_negInf_gt_one {x : ℝ} (h : 1 < x) : pow (num x) negInf = num 0 := by
  have h2 : 1 < |x| := by
    rw [abs_of_pos (lt_trans one_pos h)]
    exact h
  simp only [pow]
  rw [if_pos h2]

@[simp] theorem pow_num_posInf_gt_one {x : ℝ} (h : 1 < x) : pow (num x) posInf = posInf := by
  have h2 : 1 < |x| := by
    rw [abs_of_pos (lt_trans one_pos h)]
    exact h
  simp only [pow]
  rw [if_pos h2]

@[simp] theorem isPos_posInf : isPos posInf := trivial

end JSNum

/-! ### Evaluations of the calculators on the degenerate inputs named by
the specification -/

/-- Link budget with frequency 0: the free space loss is -Infinity and the
downstream fields are +Infinity; the viability comparison yields true. -/
theorem lbJS_freq_zero :
    (calculateLinkBudgetJS { linkBudgetDefaultJS with frequency := JSNum.num 0 }).eirp
      = JSNum.num 45 ∧
    (calculateLinkBudgetJS { linkBudgetDefaultJS with frequency := JSNum.num 0 }).freeSpaceLoss
      = JSNum.negInf ∧
    (calculateLinkBudgetJS { linkBudgetDefaultJS with frequency := JSNum.num 0 }).receivedPower
      = JSNum.posInf ∧
    (calculateLinkBudgetJS { linkBudgetDefaultJS with frequency := JSNum.num 0 }).linkMargin
      = JSNum.posInf ∧
    (calculateLinkBudgetJS { linkBudgetDefaultJS with frequency := JSNum.num 0 }).isLinkViable := by
  norm_num [calculateLinkBudgetJS, linkBudgetDefaultJS]

/-- Link budget with distance 0: same degeneracy pattern as frequency 0. -/
theorem lbJS_distance_zero :
    (calculateLinkBudgetJS { linkBudgetDefaultJS with distance := JSNum.num 0 }).freeSpaceLoss
      = JSNum.negInf ∧
    (calculateLinkBudgetJS { linkBudgetDefaultJS with distance := JSNum.num 0 }).receivedPower
      = JSNum.posInf ∧
    (calculateLinkBudgetJS { linkBudgetDefaultJS with distance := JSNum.num 0 }).linkMargin
      = JSNum.posInf := by
  norm_num [calculateLinkBudgetJS, linkBudgetDefaultJS]

/-- Cellular design with pathLossExponent 0 (frequency 1000 so that the
logarithm is exact): the exponent divides by zero, the cell radius
collapses to 0 and the number of cells is +Infinity, while the later
fields recover finite values. -/
theorem cellJS_ple_zero :
    (calculateCellularJS { cellularDefaultJS with
        frequency := JSNum.num 1000, pathLossExponent := JSNum.num 0 }).cellRadius
      = JSNum.num 0 ∧
    (calculateCellularJS { cellularDefaultJS with
        frequency := JSNum.num 1000, pathLossExponent := JSNum.num 0 }).numberOfCells
      = JSNum.posInf ∧
    (calculateCellularJS { cellularDefaultJS with
        frequency := JSNum.num 1000, pathLossExponent := JSNum.num 0 }).trafficePerCell
      = JSNum.num 0 ∧
    (calculateCellularJS { cellularDefaultJS with
        frequency := JSNum.num 1000, pathLossExponent := JSNum.num 0 }).channelsPerCell
      = JSNum.num 2 ∧
    (calculateCellularJS { cellularDefaultJS with
        frequency := JSNum.num 1000, pathLossExponent := JSNum.num 0 }).cellCapacity
      = JSNum.num 1.96 ∧
    (calculateCellularJS { cellularDefaultJS with
        frequency := JSNum.num 1000, pathLossExponent := JSNum.num 0 }).spectrumEfficiency
      = JSNum.num 4.9 := by
  norm_num [calculateCellularJS, cellularDefaultJS, logb_ten_1000]

/-- Cellular design with frequency 0: the cell radius is +Infinity, the cell
count collapses to 0, the traffic per cell divides by that zero back to
+Infinity, and the spectrum efficiency becomes NaN. -/
theorem cellJS_freq_zero :
    (calculateCellularJS { cellularDefaultJS with frequency := JSNum.num 0 }).cellRadius
      = JSNum.posInf ∧
    (calculateCellularJS { cellularDefaultJS with frequency := JSNum.num 0 }).numberOfCells
      = JSNum.num 0 ∧
    (calculateCellularJS { cellularDefaultJS with frequency := JSNum.num 0 }).trafficePerCell
      = JSNum.posInf ∧
    (calculateCellularJS { cellularDefaultJS with frequency := JSNum.num 0 }).channelsPerCell
      = JSNum.posInf ∧
    (calculateCellularJS { cellularDefaultJS with frequency := JSNum.num 0 }).cellCapacity
      = JSNum.posInf ∧
    (calculateCellularJS { cellularDefaultJS with frequency := JSNum.num 0 }).frequencyReuseFactor
      = JSNum.posInf ∧
    (calculateCellularJS { cellularDefaultJS with frequency := JSNum.num 0 }).spectrumEfficiency
      = JSNum.nan := by
  norm_num [calculateCellularJS, cellularDefaultJS]

/-- Digital chain with channelEncodingRatio 0: the channel encoder divides
by zero and the infinity propagates to the burst formatter. -/
theorem ratesJS_cer_zero :
    (calculateRatesJS { wirelessDefaultJS with channelEncodingRatio := JSNum.num 0 }).samplerRate
      = JSNum.num 64000 ∧
    (calculateRatesJS { wirelessDefaultJS with channelEncodingRatio := JSNum.num 0 }).sourceEncoderRate
      = JSNum.num 32000 ∧
    (calculateRatesJS { wirelessDefaultJS with channelEncodingRatio := JSNum.num 0 }).channelEncoderRate
      = JSNum.posInf ∧
    (calculateRatesJS { wirelessDefaultJS with channelEncodingRatio := JSNum.num 0 }).burstFormatterRate
      = JSNum.posInf := by
  norm_num [calculateRatesJS, wirelessDefaultJS]

/-- OFDM with bandwidth 0: everything is finite up to the capacity; the
spectral efficiency divides a positive capacity by zero and is +Infinity. -/
theorem ofdmJS_bw_zero :
    (calculateOFDMJS { ofdmDefaultJS with bandwidth := JSNum.num 0 }).spectralEfficiency
      = JSNum.posInf := by
  norm_num [calculateOFDMJS, ofdmDefaultJS, logb_two_four]

/-- OFDM with modulationOrder 0: log2 of zero is -Infinity and every result
field is -Infinity. -/
theorem ofdmJS_mo_zero :
    (calculateOFDMJS { ofdmDefaultJS with modulationOrder := JSNum.num 0 }).resourceElementRate
      = JSNum.negInf ∧
    (calculateOFDMJS { ofdmDefaultJS with modulationOrder := JSNum.num 0 }).ofdmSymbolRate
      = JSNum.negInf ∧
    (calculateOFDMJS { ofdmDefaultJS with modulationOrder := JSNum.num 0 }).resourceBlockRate
      = JSNum.negInf ∧
    (calculateOFDMJS { ofdmDefaultJS with modulationOrder := JSNum.num 0 }).maxTransmissionCapacity
      = JSNum.negInf ∧
    (calculateOFDMJS { ofdmDefaultJS with modulationOrder := JSNum.num 0 }).spectralEfficiency
      = JSNum.negInf := by
  norm_num [calculateOFDMJS, ofdmDefaultJS]

/-! ### Claim C6: totality and Infinity / NaN propagation on degenerate
inputs -/

/-- C6: in the JavaScript-number model every calculator is total (each
parameter record yields a complete result record; the source functions
contain no throwing operation, only arithmetic on doubles), and on the
degenerate inputs named by the specification the arithmetic degeneracies
propagate through the result fields as Infinity or NaN: frequency 0 and
distance 0 drive the link budget fields to -Infinity and +Infinity,
pathLossExponent 0 and frequency 0 drive cellular fields to +Infinity or
NaN, channelEncodingRatio 0 drives the encoder rates to +Infinity,
bandwidth 0 drives the spectral efficiency to +Infinity, and
modulationOrder 0 drives every OFDM field to -Infinity. -/
theorem c6_degenerate_inputs :
    (∀ p : LinkBudgetParamsJS, ∃ r, calculateLinkBudgetJS p = r) ∧
    (∀ p : CellularParamsJS, ∃ r, calculateCellularJS p = r) ∧
    (∀ p : WirelessParamsJS, ∃ r, calculateRatesJS p = r) ∧
    (∀ p : OFDMParamsJS, ∃ r, calculateOFDMJS p = r) ∧
    ((calculateLinkBudgetJS { linkBudgetDefaultJS with frequency := JSNum.num 0 }).freeSpaceLoss
        = JSNum.negInf ∧
      (calculateLinkBudgetJS { linkBudgetDefaultJS with frequency := JSNum.num 0 }).linkMargin
        = JSNum.posInf) ∧
    ((calculateLinkBudgetJS { linkBudgetDefaultJS with distance := JSNum.num 0 }).freeSpaceLoss
        = JSNum.negInf ∧
      (calculateLinkBudgetJS { linkBudgetDefaultJS with distance := JSNum.num 0 }).linkMargin
        = JSNum.posInf) ∧
    ((calculateCellularJS { cellularDefaultJS with
          frequency := JSNum.num 1000, pathLossExponent := JSNum.num 0 }).numberOfCells
        = JSNum.posInf ∧
      (calculateCellularJS { cellularDefaultJS with
          frequency := JSNum.num 1000, pathLossExponent := JSNum.num 0 }).spectrumEfficiency
        = JSNum.num 4.9) ∧
    ((calculateCellularJS { cellularDefaultJS with frequency := JSNum.num 0 }).cellRadius
        = JSNum.posInf ∧
      (calculateCellularJS { cellularDefaultJS with frequency := JSNum.num 0 }).spectrumEfficiency
        = JSNum.nan) ∧
    ((calculateRatesJS { wirelessDefaultJS with channelEncodingRatio := JSNum.num 0 }).channelEncoderRate
        = JSNum.posInf ∧
      (calculateRatesJS { wirelessDefaultJS with channelEncodingRatio := JSNum.num 0 }).burstFormatterRate
        = JSNum.posInf) ∧
    ((calculateOFDMJS { ofdmDefaultJS with bandwidth := JSNum.num 0 }).spectralEfficiency
        = JSNum.posInf) ∧
    ((calculateOFDMJS { ofdmDefaultJS with modulationOrder := JSNum.num 0 }).resourceElementRate
        = JSNum.negInf ∧
      (calculateOFDMJS { ofdmDefaultJS with modulationOrder := JSNum.num 0 }).spectralEfficiency
        = JSNum.negInf) :=
  ⟨fun _ => ⟨_, rfl⟩, fun _ => ⟨_, rfl⟩, fun _ => ⟨_, rfl⟩, fun _ => ⟨_, rfl⟩,
   ⟨lbJS_freq_zero.2.1, lbJS_freq_zero.2.2.2.1⟩,
   ⟨lbJS_distance_zero.1, lbJS_distance_zero.2.2⟩,
   ⟨cellJS_ple_zero.2.1, cellJS_ple_zero.2.2.2.2.2⟩,
   ⟨cellJS_freq_zero.1, cellJS_freq_zero.2.2.2.2.2.2⟩,
   ⟨ratesJS_cer_zero.2.2.1, ratesJS_cer_zero.2.2.2⟩,
   ofdmJS_bw_zero,
   ⟨ofdmJS_mo_zero.1, ofdmJS_mo_zero.2.2.2.2⟩⟩

/-! ### Claim C5: link viability boundary -/

/-- C5: for every link budget parameter record the result flag isLinkViable
holds exactly when the computed linkMargin is strictly positive, and when
the linkMargin is exactly zero the link is not viable. -/
theorem c5_linkViable_iff_margin_pos (p : LinkBudgetParams) :
    ((calculateLinkBudget p).isLinkViable ↔ 0 < (calculateLinkBudget p).linkMargin) ∧
    ((calculateLinkBudget p).linkMargin = 0 → ¬ (calculateLinkBudget p).isLinkViable) := by
  refine ⟨Iff.rfl, fun h hv => ?_⟩
  have hv2 : (0 : ℝ) < (calculateLinkBudget p).linkMargin := hv
  rw [h] at hv2
  exact lt_irrefl 0 hv2

/-- Witness for C5 at the boundary input: the link margin is exactly zero
and the link is reported not viable. -/
theorem c5_linkViable_boundary_witness :
    (calculateLinkBudget linkBudgetBoundary).linkMargin = 0 ∧
    ¬ (calculateLinkBudget linkBudgetBoundary).isLinkViable := by
  have hm : (calculateLinkBudget linkBudgetBoundary).linkMargin = 0 := by
    show (72.44 + 0 : ℝ) - (20 * Real.logb 10 10 + 20 * Real.logb 10 10 + 32.44)
        + 0 - 0 - 0 - 0 = 0
    rw [Real.logb_self_eq_one (by norm_num)]
    norm_num
  exact ⟨hm, (c5_linkViable_iff_margin_pos linkBudgetBoundary).2 hm⟩

/-! ### Claim C7: dead input fields -/

/-- C7: the digital chain result is unchanged under any change of
sourceBitRate and interleaverDepth, and the OFDM result is unchanged under
any change of subcarrierSpacing: these fields are accepted but unused. -/
theorem c7_unused_params_ignored :
    (∀ (p : WirelessParams) (s i : ℝ),
      calculateRates { p with sourceBitRate := s, interleaverDepth := i } =
        calculateRates p) ∧
    (∀ (p : OFDMParams) (s : ℝ),
      calculateOFDM { p with subcarrierSpacing := s } = calculateOFDM p) := by
  exact ⟨fun p s i => rfl, fun p s => rfl⟩

/-! ### Claim C8: determinism -/

/-- C8: each of the four calculators is a pure function of its parameter
record: any two invocations on equal records return equal result records;
there is no hidden state and no randomness in the embedding, matching the
source functions, which read nothing but their input record. -/
theorem c8_calculators_deterministic :
    (∀ p q : LinkBudgetParams, p = q → calculateLinkBudget p = calculateLinkBudget q) ∧
    (∀ p q : CellularParams, p = q → calculateCellular p = calculateCellular q) ∧
    (∀ p q : WirelessParams, p = q → calculateRates p = calculateRates q) ∧
    (∀ p q : OFDMParams, p = q → calculateOFDM p = calculateOFDM q) := by
  exact ⟨fun p q h => by rw [h], fun p q h => by rw [h],
    fun p q h => by rw [h], fun p q h => by rw [h]⟩

/-- Witness for C8 on the default records of the four calculators. -/
theorem c8_calculators_deterministic_witness :
    calculateLinkBudget linkBudgetDefault = calculateLinkBudget linkBudgetDefault ∧
    calculateCellular cellularDefault = calculateCellular cellularDefault ∧
    calculateRates wirelessDefault = calculateRates wirelessDefault ∧
    calculateOFDM ofdmDefault = calculateOFDM ofdmDefault :=
  ⟨c8_calculators_deterministic.1 _ _ rfl,
   c8_calculators_deterministic.2.1 _ _ rfl,
   c8_calculators_deterministic.2.2.1 _ _ rfl,
   c8_calculators_deterministic.2.2.2 _ _ rfl⟩

/-! ### Claim C10: spectrum efficiency depends only on the blocking
probability -/

/-- C10: whenever the computed channelsPerCell is nonzero, the returned
spectrumEfficiency equals (1 - blockingProbability) / 0.2: the
channelsPerCell factor cancels between the capacity and the divisor. -/
theorem c10_spectrumEfficiency_only_blocking (p : CellularParams)
    (h : (calculateCellular p).channelsPerCell ≠ 0) :
    (calculateCellular p).spectrumEfficiency = (1 - p.blockingProbability) / 0.2 := by
  have hc : (((calculateCellular p).channelsPerCell : ℤ) : ℝ) ≠ 0 :=
    Int.cast_ne_zero.mpr h
  have e : (calculateCellular p).spectrumEfficiency =
      (((calculateCellular p).channelsPerCell : ℤ) : ℝ) * (1 - p.blockingProbability)
        / ((((calculateCellular p).channelsPerCell : ℤ) : ℝ) * 0.2) := rfl
  rw [e, mul_div_mul_left _ _ hc]

/-! ### Claim C9: explanation client, corrected -/

/-- C9 counterexample: a 200 response in which the first candidate text
part is present but is the empty string.  The claim says the client
extracts the first text part, which would give the empty string; the code
instead falls back to the literal message, because the JavaScript or-else
treats the empty string as falsy. -/
theorem c9_empty_text_counterexample :
    extractText emptyTextResponse.data = some "" ∧
    getExplanation emptyTextResponse = Except.ok "No explanation available." ∧
    getExplanation emptyTextResponse ≠ Except.ok "" := by
  have he : getExplanation emptyTextResponse = Except.ok "No explanation available." := rfl
  refine ⟨rfl, he, fun h => ?_⟩
  rw [he] at h
  injection h with h2
  exact absurd h2 (by decide)

/-- C9 amended: on a 2xx response the client returns the first candidate
first text part when that path is present and the text is non-empty; when
the path is absent or the text is the empty string it returns the literal
fallback; on a non-2xx response the call is a hard failure whose error
detail contains the status and the response body. -/
theorem c9_explanation_client_amended :
    (∀ (r : ApiResponse) (t : String), r.ok = true → extractText r.data = some t →
      t ≠ "" → getExplanation r = Except.ok t) ∧
    (∀ r : ApiResponse, r.ok = true →
      (extractText r.data = none ∨ extractText r.data = some "") →
      getExplanation r = Except.ok "No explanation available.") ∧
    (∀ r : ApiResponse, r.ok = false →
      getExplanation r =
        Except.error
          ("API request failed with status " ++ toString r.status ++ ": " ++ r.body)) := by
  refine ⟨?_, ?_, ?_⟩
  · intro r t hok hx ht
    unfold getExplanation
    rw [if_pos hok, hx]
    simp only [orFallback]
    rw [if_neg ht]
  · intro r hok hx
    unfold getExplanation
    rw [if_pos hok]
    rcases hx with h | h <;> rw [h] <;> simp [orFallback]
  · intro r hok
    unfold getExplanation
    rw [if_neg (by simp [hok])]

/-- Witness for C9 on three concrete responses: a normal text part, a
missing path, and a 404 with a body. -/
theorem c9_explanation_client_amended_witness :
    getExplanation okTextResponse = Except.ok "ok" ∧
    getExplanation missingPathResponse = Except.ok "No explanation available." ∧
    getExplanation errorResponse =
      Except.error
        ("API request failed with status " ++ toString (404 : Nat) ++ ": " ++ "not found") := by
  refine ⟨?_, ?_, ?_⟩
  · exact c9_explanation_client_amended.1 okTextResponse "ok" (by decide) rfl (by decide)
  · exact c9_explanation_client_amended.2.1 missingPathResponse (by decide) (Or.inl rfl)
  · exact c9_explanation_client_amended.2.2 errorResponse (by decide)

/-- Witness for C10 on a concrete input with six channels per cell and
blocking probability one half: the spectrum efficiency is 2.5. -/
theorem c10_spectrumEfficiency_witness :
    (calculateCellular cellularSimple).channelsPerCell ≠ 0 ∧
    (calculateCellular cellularSimple).spectrumEfficiency = 2.5 := by
  have hr : (calculateCellular cellularSimple).cellRadius = 1 := by
    show (10 : ℝ) ^ ((52.44 + 0 - 0 - 0 - 32.44 - 20 * Real.logb 10 10) / (10 * 1)) = 1
    rw [Real.logb_self_eq_one (by norm_num)]
    norm_num
  have hn : (calculateCellular cellularSimple).numberOfCells = 1 := by
    show (⌈(2.598 : ℝ) / (2.598 * (calculateCellular cellularSimple).cellRadius ^ (2 : ℕ))⌉ : ℤ) = 1
    rw [hr]
    norm_num
  have ht : (calculateCellular cellularSimple).trafficePerCell = 1 := by
    show (3600 * 1 / 3600 : ℝ) / (((calculateCellular cellularSimple).numberOfCells : ℤ) : ℝ) = 1
    rw [hn]
    norm_num
  have hc : (calculateCellular cellularSimple).channelsPerCell = 6 := by
    show (⌈(calculateCellular cellularSimple).trafficePerCell
        + 3 * Real.sqrt ((calculateCellular cellularSimple).trafficePerCell) + 2⌉ : ℤ) = 6
    rw [ht, Real.sqrt_one]
    norm_num
  refine ⟨by rw [hc]; decide, ?_⟩
  rw [c10_spectrumEfficiency_only_blocking cellularSimple (by rw [hc]; decide)]
  show ((1 : ℝ) - 0.5) / 0.2 = 2.5
  norm_num

end WirelessWizard
